import Mathlib

/-!
# Verification of the inflation scenario generator

Shallow embedding of `generate_scenario_data` from `src/app.py` and of the
derived summary values consumed by the dashboard, together with proofs of the
specified properties.

The Python function builds 84 month-end dates (pandas `date_range` from
2020-01-01 to 2026-12-31 with month-end frequency), a linear trend
(`np.linspace(2.0, base_inflation, n)`), a sinusoidal seasonality
(`np.sin(np.linspace(0, 8*pi, n)) * 0.5`), Gaussian noise
(`np.random.normal(0, volatility, n)`), and an exponentially decaying shock
starting at index 48, and returns the dates paired with the sum of the four
components.

Modelling decisions:
* numeric values are real numbers (`ℝ`), the idealised semantics of the
  floating-point arithmetic of the source;
* a date is encoded as the natural number `y*10000 + m*100 + d`, which orders
  dates chronologically;
* the random draws of `np.random.normal` are modelled by an explicit source
  `ω : ℕ → ℝ` of standard-normal draws; numpy computes `loc + scale * z_i`
  (here `loc = 0`), so the i-th noise value is `volatility * ω i`, and numpy
  raises `ValueError` when the scale is negative, which we model with
  `Except`.
-/

namespace Inflation

/-- Gregorian leap-year test. -/
def isLeap (y : ℕ) : Bool :=
  (y % 4 == 0 && y % 100 != 0) || y % 400 == 0

/-- Number of days in month `m` (1..12) of year `y`. -/
def daysInMonth (y m : ℕ) : ℕ :=
  if m == 2 then (if isLeap y then 29 else 28)
  else if m == 4 || m == 6 || m == 9 || m == 11 then 30
  else 31

/-- Encode a calendar date as `y*10000 + m*100 + d`; this encoding is
monotone in chronological order. -/
def encodeDate (y m d : ℕ) : ℕ := y * 10000 + m * 100 + d

/-- The month-end date of the `k`-th month counted from January 2020
(`k = 0` is 2020-01-31). -/
def monthEndDate (k : ℕ) : ℕ :=
  let y := 2020 + k / 12
  let m := k % 12 + 1
  encodeDate y m (daysInMonth y m)

/-- Number of months from January 2020 to December 2026 inclusive. -/
def numMonths : ℕ := (2026 - 2020) * 12 + 12

/-- `pd.date_range(start="2020-01-01", end="2026-12-31", freq="M")`: the
month-end dates lying in the interval, one per month from January 2020 to
December 2026. -/
def dates : List ℕ := (List.range numMonths).map monthEndDate

/-- `n = len(dates)` from the source. -/
def n : ℕ := dates.length

/-- `np.linspace(a, b, m)` evaluated at index `i`:
`a + (b - a) * i / (m - 1)`. -/
noncomputable def linspace (a b : ℝ) (m i : ℕ) : ℝ :=
  a + (b - a) * i / (m - 1 : ℕ)

/-- `trend = np.linspace(2.0, base_inflation, n)` at index `i`. -/
noncomputable def trend (base_inflation : ℝ) (i : ℕ) : ℝ :=
  linspace 2.0 base_inflation n i

/-- `seasonality = np.sin(np.linspace(0, 8*np.pi, n)) * 0.5` at index `i`. -/
noncomputable def seasonality (i : ℕ) : ℝ :=
  Real.sin (linspace 0 (8 * Real.pi) n i) * 0.5

/-- `np.random.normal(0, scale, n)`: numpy raises `ValueError` when
`scale < 0`; otherwise the `i`-th draw is `0 + scale * z_i`, where `z_i` is
the `i`-th standard-normal draw taken from the random source `ω`. -/
noncomputable def np_random_normal (scale : ℝ) (ω : ℕ → ℝ) :
    Except String (ℕ → ℝ) :=
  if scale < 0 then .error "ValueError: scale < 0"
  else .ok (fun i => 0 + scale * ω i)

/-- The shock component: `shock = np.zeros(n)` followed by
`shock[48:] = shock_factor * np.exp(-0.1 * np.arange(n - 48))`, so index
`48 + k` holds `shock_factor * exp(-0.1 * k)`. -/
noncomputable def shock (shock_factor : ℝ) (i : ℕ) : ℝ :=
  if i < 48 then 0 else shock_factor * Real.exp (-0.1 * (i - 48 : ℕ))

/-- The series value at index `i`, given the realised noise array:
`values = trend + seasonality + noise + shock`. -/
noncomputable def value (base_inflation shock_factor : ℝ) (noise : ℕ → ℝ)
    (i : ℕ) : ℝ :=
  trend base_inflation i + seasonality i + noise i + shock shock_factor i

/-- `generate_scenario_data(base_inflation, shock_factor, volatility)` with
the random source `ω` made explicit: either the `ValueError` from the noise
draw, or the list of `(date, value)` rows of the returned data frame. -/
noncomputable def generate_scenario_data
    (base_inflation shock_factor volatility : ℝ) (ω : ℕ → ℝ) :
    Except String (List (ℕ × ℝ)) :=
  (np_random_normal volatility ω).map (fun noise =>
    (List.range n).map (fun i =>
      (monthEndDate i, value base_inflation shock_factor noise i)))

/-- The list of rows of a successful `generate_scenario_data` call
(`[]` in the error case, which never occurs for nonnegative volatility). -/
noncomputable def okSeries (base_inflation shock_factor volatility : ℝ)
    (ω : ℕ → ℝ) : List (ℕ × ℝ) :=
  (generate_scenario_data base_inflation shock_factor volatility ω).toOption.getD []

/-- `df['Inflation'].iloc[-1]`: the value of the last row. -/
noncomputable def curr_val (df : List (ℕ × ℝ)) : ℝ :=
  ((df.getLast?).map Prod.snd).getD 0

/-- `df['Inflation'].max()`: the maximum over the value column. -/
noncomputable def peak_val (df : List (ℕ × ℝ)) : ℝ :=
  ((df.map Prod.snd).maximum).getD 0

/-- `df['Inflation'].iloc[47]`: the value of row 47 (December 2023). -/
noncomputable def pre_shock_val (df : List (ℕ × ℝ)) : ℝ :=
  ((df.map Prod.snd).getD 47 0)

/-- `df[df['Date'] < '2024-01-01']`: the historical segment. -/
noncomputable def history (df : List (ℕ × ℝ)) : List (ℕ × ℝ) :=
  df.filter (fun p => p.1 < encodeDate 2024 1 1)

/-- `df[df['Date'] >= '2024-01-01']`: the forecast segment. -/
noncomputable def forecast (df : List (ℕ × ℝ)) : List (ℕ × ℝ) :=
  df.filter (fun p => encodeDate 2024 1 1 ≤ p.1)

/-- The spec's closed-form value with the noise term removed:
`trend[i] + seasonality[i] + shock[i]` where `trend[i] = 2 + (t-2)·i/83`,
`seasonality[i] = 0.5·sin(8π·i/83)`, and `shock[i] = 0` for `i < 48` and
`s·exp(-0.1·(i-48))` for `i ≥ 48`. Stated from the spec's words, to be
compared with the embedded implementation. -/
noncomputable def specValueNoNoise (t s : ℝ) (i : ℕ) : ℝ :=
  (2 + (t - 2) * i / 83) + 0.5 * Real.sin (8 * Real.pi * i / 83) +
    (if i < 48 then 0 else s * Real.exp (-0.1 * ((i : ℝ) - 48)))

/-! ## Helper lemmas -/

lemma n_eq : n = 84 := rfl

lemma generate_eq_ok (b s vol : ℝ) (ω : ℕ → ℝ) (h : 0 ≤ vol) :
    generate_scenario_data b s vol ω =
      .ok ((List.range n).map (fun i =>
        (monthEndDate i, value b s (fun j => 0 + vol * ω j) i))) := by
  unfold generate_scenario_data np_random_normal
  rw [if_neg (not_lt.mpr h)]
  rfl

lemma okSeries_eq (b s vol : ℝ) (ω : ℕ → ℝ) (h : 0 ≤ vol) :
    okSeries b s vol ω = (List.range n).map (fun i =>
      (monthEndDate i, value b s (fun j => 0 + vol * ω j) i)) := by
  unfold okSeries
  rw [generate_eq_ok b s vol ω h]
  rfl

lemma generate_eq_ok_okSeries (b s vol : ℝ) (ω : ℕ → ℝ) (h : 0 ≤ vol) :
    generate_scenario_data b s vol ω = .ok (okSeries b s vol ω) := by
  rw [okSeries_eq b s vol ω h, generate_eq_ok b s vol ω h]

lemma series_getD (b s : ℝ) (noise : ℕ → ℝ) (i : ℕ) (hi : i < 84) :
    ((List.range n).map (fun k => (monthEndDate k, value b s noise k))).getD
        i (0, 0) = (monthEndDate i, value b s noise i) := by
  rw [List.getD_eq_getElem _ _ (by simpa [n_eq] using hi)]
  simp [n_eq]

lemma value_zero_vol (b s : ℝ) (ω : ℕ → ℝ) (i : ℕ) :
    value b s (fun j => 0 + 0 * ω j) i =
      trend b i + seasonality i + shock s i := by
  simp [value]

lemma trend_eq (b : ℝ) (i : ℕ) : trend b i = 2 + (b - 2) * i / 83 := by
  unfold trend linspace n dates numMonths
  norm_num

lemma seasonality_eq (i : ℕ) :
    seasonality i = Real.sin (8 * Real.pi * i / 83) * 0.5 := by
  unfold seasonality linspace n dates numMonths
  norm_num

lemma trend_zero (b : ℝ) : trend b 0 = 2 := by
  rw [trend_eq]; norm_num

lemma trend_last (b : ℝ) : trend b 83 = b := by
  rw [trend_eq]; norm_num

lemma seasonality_zero : seasonality 0 = 0 := by
  rw [seasonality_eq]; norm_num

lemma shock_lt (s : ℝ) (i : ℕ) (h : i < 48) : shock s i = 0 := by
  unfold shock; rw [if_pos h]

lemma shock_ge (s : ℝ) (i : ℕ) (h : 48 ≤ i) :
    shock s i = s * Real.exp (-0.1 * ((i : ℝ) - 48)) := by
  unfold shock
  rw [if_neg (not_lt.mpr h), Nat.cast_sub h]
  norm_num

lemma shock_48 (s : ℝ) : shock s 48 = s := by
  rw [shock_ge s 48 le_rfl]
  norm_num

lemma shock_pos (s : ℝ) (hs : 0 < s) (i : ℕ) (h : 48 ≤ i) : 0 < shock s i := by
  rw [shock_ge s i h]
  positivity

lemma shock_anti (s : ℝ) (hs : 0 < s) (i j : ℕ) (hi : 48 ≤ i) (hij : i < j) :
    shock s j < shock s i := by
  rw [shock_ge s i hi, shock_ge s j (hi.trans hij.le)]
  have hij' : (i : ℝ) < j := by exact_mod_cast hij
  have hexp := Real.exp_lt_exp.mpr
    (show -0.1 * ((j : ℝ) - 48) < -0.1 * ((i : ℝ) - 48) by nlinarith)
  nlinarith [Real.exp_pos (-0.1 * ((j : ℝ) - 48))]

lemma peak_val_spec (df : List (ℕ × ℝ)) (hne : df.map Prod.snd ≠ []) :
    peak_val df ∈ df.map Prod.snd ∧
      ∀ v ∈ df.map Prod.snd, v ≤ peak_val df := by
  obtain ⟨m, hm⟩ : ∃ m : ℝ, (df.map Prod.snd).maximum = (m : WithBot ℝ) := by
    cases hmx : (df.map Prod.snd).maximum with
    | bot => exact absurd (List.maximum_eq_none.mp hmx) hne
    | coe m => exact ⟨m, rfl⟩
  have hpeak : peak_val df = m := by unfold peak_val; rw [hm]; rfl
  constructor
  · rw [hpeak]; exact List.maximum_mem hm
  · intro v hv; rw [hpeak]
    exact_mod_cast List.le_maximum_of_mem hv hm

lemma monthEndDate_ne_jan1 : ∀ k < 84, monthEndDate k ≠ encodeDate 2024 1 1 := by
  decide

/-! ## Claims -/

/-- C1: for every target inflation and shock intensity, when volatility = 0
the i-th value of the generated series equals exactly
`trend[i] + seasonality[i] + shock[i]`, with `trend[i] = 2 + (t-2)·i/83`,
`seasonality[i] = 0.5·sin(8π·i/83)`, and `shock[i] = 0` for `i < 48`,
`s·exp(-0.1·(i-48))` for `i ≥ 48`; the noise term is exactly zero. -/
theorem C1_zero_volatility_value (t s : ℝ) (ω : ℕ → ℝ) (i : ℕ) (hi : i < 84) :
    generate_scenario_data t s 0 ω = .ok (okSeries t s 0 ω) ∧
    ((okSeries t s 0 ω).getD i (0, 0)).2 = specValueNoNoise t s i := by
  refine ⟨generate_eq_ok_okSeries t s 0 ω le_rfl, ?_⟩
  rw [okSeries_eq t s 0 ω le_rfl, series_getD t s _ i hi]
  show value t s (fun j => 0 + 0 * ω j) i = specValueNoNoise t s i
  rw [value_zero_vol, specValueNoNoise, trend_eq, seasonality_eq]
  by_cases h : i < 48
  · rw [shock_lt s i h, if_pos h]
    ring
  · rw [shock_ge s i (not_lt.mp h), if_neg h]
    ring

theorem C1_zero_volatility_value_witness :
    generate_scenario_data 3.5 1.5 0 (fun _ => 0) =
      .ok (okSeries 3.5 1.5 0 (fun _ => 0)) ∧
    ((okSeries 3.5 1.5 0 (fun _ => 0)).getD 83 (0, 0)).2 =
      specValueNoNoise 3.5 1.5 83 :=
  C1_zero_volatility_value 3.5 1.5 (fun _ => 0) 83 (by decide)

/-- C2: for every parameter triple with volatility ≥ 0, the generator
succeeds and returns exactly 84 rows whose dates are the fixed month-end
calendar from 2020-01-31 to 2026-12-31, in strictly increasing chronological
order, independent of all three parameters. -/
theorem C2_fixed_calendar (t s vol : ℝ) (ω : ℕ → ℝ) (h : 0 ≤ vol) :
    generate_scenario_data t s vol ω = .ok (okSeries t s vol ω) ∧
    (okSeries t s vol ω).length = 84 ∧
    (okSeries t s vol ω).map Prod.fst = dates ∧
    List.Sorted (· < ·) dates ∧
    dates.getD 0 0 = encodeDate 2020 1 31 ∧
    dates.getD 83 0 = encodeDate 2026 12 31 := by
  refine ⟨generate_eq_ok_okSeries t s vol ω h, ?_, ?_, by decide, by decide,
    by decide⟩
  · rw [okSeries_eq t s vol ω h]; simp [n_eq]
  · rw [okSeries_eq t s vol ω h]
    simp only [List.map_map]
    rfl

theorem C2_fixed_calendar_witness :
    generate_scenario_data 3.5 1.5 1 (fun _ => 0) =
      .ok (okSeries 3.5 1.5 1 (fun _ => 0)) ∧
    (okSeries 3.5 1.5 1 (fun _ => 0)).length = 84 ∧
    (okSeries 3.5 1.5 1 (fun _ => 0)).map Prod.fst = dates ∧
    List.Sorted (· < ·) dates ∧
    dates.getD 0 0 = encodeDate 2020 1 31 ∧
    dates.getD 83 0 = encodeDate 2026 12 31 :=
  C2_fixed_calendar 3.5 1.5 1 (fun _ => 0) zero_le_one

/-- C3: the shock term is 0 at every index below 48, equals the shock
intensity exactly at index 48, and for positive intensity is strictly
positive and strictly decreasing from index 48 onwards. -/
theorem C3_shock_profile (s : ℝ) :
    (∀ i, i < 48 → shock s i = 0) ∧
    shock s 48 = s ∧
    (0 < s → (∀ i, 48 < i → 0 < shock s i) ∧
      (∀ i j, 48 ≤ i → i < j → shock s j < shock s i)) :=
  ⟨shock_lt s, shock_48 s, fun hs =>
    ⟨fun i hi => shock_pos s hs i hi.le,
     fun i j hi hij => shock_anti s hs i j hi hij⟩⟩

theorem C3_shock_profile_witness :
    shock 1 47 = 0 ∧ shock 1 48 = 1 ∧
    0 < shock 1 49 ∧ shock 1 50 < shock 1 49 :=
  ⟨(C3_shock_profile 1).1 47 (by decide), (C3_shock_profile 1).2.1,
   ((C3_shock_profile 1).2.2 one_pos).1 49 (by decide),
   ((C3_shock_profile 1).2.2 one_pos).2 49 50 (by decide) (by decide)⟩

/-- C4: the trend component starts at exactly 2.0 and ends at exactly the
target inflation: `trend[0] = 2` and `trend[83] = t` for every target. -/
theorem C4_trend_endpoints (t : ℝ) : trend t 0 = 2 ∧ trend t 83 = t :=
  ⟨trend_zero t, trend_last t⟩

/-- C5: a call with negative volatility fails at the noise-generation step
with numpy's invalid-argument `ValueError` and returns no series; the
negative scale is not clamped to zero. -/
theorem C5_negative_volatility_error (t s vol : ℝ) (ω : ℕ → ℝ)
    (h : vol < 0) :
    generate_scenario_data t s vol ω = .error "ValueError: scale < 0" := by
  unfold generate_scenario_data np_random_normal
  rw [if_pos h]
  rfl

theorem C5_negative_volatility_error_witness :
    generate_scenario_data 3.5 1.5 (-1) (fun _ => 0) =
      .error "ValueError: scale < 0" :=
  C5_negative_volatility_error 3.5 1.5 (-1) (fun _ => 0)
    (neg_lt_zero.mpr one_pos)

/-- C6: with volatility = 0 the generator is deterministic: two calls with
the same target and shock intensity return identical sequences, whatever
random draws the random source would have supplied to each call. -/
theorem C6_deterministic_at_zero_volatility (t s : ℝ) (ω₁ ω₂ : ℕ → ℝ) :
    generate_scenario_data t s 0 ω₁ = generate_scenario_data t s 0 ω₂ := by
  rw [generate_eq_ok t s 0 ω₁ le_rfl, generate_eq_ok t s 0 ω₂ le_rfl]
  simp [value]

/-- C7: the three summary scalars are taken from the generated series as the
last value (index 83), the value at index 47 (whose date is 2023-12-31,
December 2023), and the maximum over all 84 values. -/
theorem C7_summary_values (t s vol : ℝ) (ω : ℕ → ℝ) (h : 0 ≤ vol) :
    generate_scenario_data t s vol ω = .ok (okSeries t s vol ω) ∧
    curr_val (okSeries t s vol ω) =
      ((okSeries t s vol ω).map Prod.snd).getD 83 0 ∧
    pre_shock_val (okSeries t s vol ω) =
      ((okSeries t s vol ω).map Prod.snd).getD 47 0 ∧
    ((okSeries t s vol ω).map Prod.fst).getD 47 0 = encodeDate 2023 12 31 ∧
    peak_val (okSeries t s vol ω) ∈ (okSeries t s vol ω).map Prod.snd ∧
    (∀ v ∈ (okSeries t s vol ω).map Prod.snd,
      v ≤ peak_val (okSeries t s vol ω)) := by
  have hser := okSeries_eq t s vol ω h
  have hne : (okSeries t s vol ω).map Prod.snd ≠ [] := by
    rw [hser]
    simp [n_eq]
  refine ⟨generate_eq_ok_okSeries t s vol ω h, ?_, rfl, ?_,
    (peak_val_spec _ hne).1, (peak_val_spec _ hne).2⟩
  · rw [hser]
    unfold curr_val
    rw [List.getLast?_eq_getElem?]
    simp [n_eq, List.getD_eq_getElem?_getD]
  · rw [hser]
    simp only [List.map_map, n_eq]
    rw [List.getD_eq_getElem _ _ (by simp)]
    simp only [List.getElem_map, List.getElem_range, Function.comp]
    decide

theorem C7_summary_values_witness :
    generate_scenario_data 3.5 1.5 1 (fun _ => 0) =
      .ok (okSeries 3.5 1.5 1 (fun _ => 0)) ∧
    curr_val (okSeries 3.5 1.5 1 (fun _ => 0)) =
      ((okSeries 3.5 1.5 1 (fun _ => 0)).map Prod.snd).getD 83 0 ∧
    pre_shock_val (okSeries 3.5 1.5 1 (fun _ => 0)) =
      ((okSeries 3.5 1.5 1 (fun _ => 0)).map Prod.snd).getD 47 0 ∧
    ((okSeries 3.5 1.5 1 (fun _ => 0)).map Prod.fst).getD 47 0 =
      encodeDate 2023 12 31 ∧
    peak_val (okSeries 3.5 1.5 1 (fun _ => 0)) ∈
      (okSeries 3.5 1.5 1 (fun _ => 0)).map Prod.snd ∧
    (∀ v ∈ (okSeries 3.5 1.5 1 (fun _ => 0)).map Prod.snd,
      v ≤ peak_val (okSeries 3.5 1.5 1 (fun _ => 0))) :=
  C7_summary_values 3.5 1.5 1 (fun _ => 0) zero_le_one

/-- C8: noninterference of the shock intensity before onset: with
volatility = 0, series generated with different shock intensities agree
exactly at every index below 48, so the pre-shock summary (index 47) does
not depend on the shock intensity. -/
theorem C8_preshock_noninterference (t s₁ s₂ : ℝ) (ω₁ ω₂ : ℕ → ℝ) :
    (∀ i, i < 48 →
      (okSeries t s₁ 0 ω₁).getD i (0, 0) =
        (okSeries t s₂ 0 ω₂).getD i (0, 0)) ∧
    pre_shock_val (okSeries t s₁ 0 ω₁) =
      pre_shock_val (okSeries t s₂ 0 ω₂) := by
  have key : ∀ i, i < 48 →
      (okSeries t s₁ 0 ω₁).getD i (0, 0) =
        (okSeries t s₂ 0 ω₂).getD i (0, 0) := by
    intro i hi
    have hi84 : i < 84 := hi.trans (by norm_num)
    rw [okSeries_eq t s₁ 0 ω₁ le_rfl, okSeries_eq t s₂ 0 ω₂ le_rfl,
      series_getD t s₁ _ i hi84, series_getD t s₂ _ i hi84, Prod.mk.injEq]
    refine ⟨rfl, ?_⟩
    rw [value_zero_vol, value_zero_vol, shock_lt s₁ i hi, shock_lt s₂ i hi]
  refine ⟨key, ?_⟩
  have h47 := key 47 (by norm_num)
  rw [okSeries_eq t s₁ 0 ω₁ le_rfl, okSeries_eq t s₂ 0 ω₂ le_rfl,
    series_getD t s₁ _ 47 (by norm_num),
    series_getD t s₂ _ 47 (by norm_num)] at h47
  unfold pre_shock_val
  rw [okSeries_eq t s₁ 0 ω₁ le_rfl, okSeries_eq t s₂ 0 ω₂ le_rfl]
  simp only [List.map_map, n_eq]
  rw [List.getD_eq_getElem _ _ (by simp), List.getD_eq_getElem _ _ (by simp)]
  simp only [List.getElem_map, List.getElem_range, Function.comp]
  exact congrArg Prod.snd h47

theorem C8_preshock_noninterference_witness :
    (okSeries 3.5 0 0 (fun _ => 0)).getD 0 (0, 0) =
      (okSeries 3.5 5 0 (fun _ => 0)).getD 0 (0, 0) ∧
    pre_shock_val (okSeries 3.5 0 0 (fun _ => 0)) =
      pre_shock_val (okSeries 3.5 5 0 (fun _ => 0)) :=
  ⟨(C8_preshock_noninterference 3.5 0 5 (fun _ => 0) (fun _ => 0)).1 0
      (by decide),
   (C8_preshock_noninterference 3.5 0 5 (fun _ => 0) (fun _ => 0)).2⟩

/-- C9: splitting the generated series at 2024-01-01 puts exactly the first
48 rows (indices 0..47) in the historical segment and the remaining 36
(indices 48..83) in the forecast segment; no generated date equals
2024-01-01, and the shock-onset month-end 2024-01-31 opens the forecast
segment. -/
theorem C9_forecast_split (t s vol : ℝ) (ω : ℕ → ℝ) (h : 0 ≤ vol) :
    generate_scenario_data t s vol ω = .ok (okSeries t s vol ω) ∧
    history (okSeries t s vol ω) = (okSeries t s vol ω).take 48 ∧
    forecast (okSeries t s vol ω) = (okSeries t s vol ω).drop 48 ∧
    (history (okSeries t s vol ω)).length = 48 ∧
    (forecast (okSeries t s vol ω)).length = 36 ∧
    (∀ p ∈ okSeries t s vol ω, p.1 ≠ encodeDate 2024 1 1) ∧
    ((forecast (okSeries t s vol ω)).map Prod.fst).getD 0 0 =
      encodeDate 2024 1 31 := by
  have hser := okSeries_eq t s vol ω h
  rw [n_eq] at hser
  have hhist : history (okSeries t s vol ω) =
      (List.range 48).map (fun i =>
        (monthEndDate i, value t s (fun j => 0 + vol * ω j) i)) := by
    unfold history
    rw [hser, List.filter_map]
    have hcomp : (fun p : ℕ × ℝ => decide (p.1 < encodeDate 2024 1 1)) ∘
        (fun i => (monthEndDate i, value t s (fun j => 0 + vol * ω j) i)) =
        fun i => decide (monthEndDate i < encodeDate 2024 1 1) := rfl
    rw [hcomp,
      show (List.range 84).filter
          (fun i => decide (monthEndDate i < encodeDate 2024 1 1)) =
        List.range 48 from by decide]
  have hfore : forecast (okSeries t s vol ω) =
      ((List.range 84).drop 48).map (fun i =>
        (monthEndDate i, value t s (fun j => 0 + vol * ω j) i)) := by
    unfold forecast
    rw [hser, List.filter_map]
    have hcomp : (fun p : ℕ × ℝ => decide (encodeDate 2024 1 1 ≤ p.1)) ∘
        (fun i => (monthEndDate i, value t s (fun j => 0 + vol * ω j) i)) =
        fun i => decide (encodeDate 2024 1 1 ≤ monthEndDate i) := rfl
    rw [hcomp,
      show (List.range 84).filter
          (fun i => decide (encodeDate 2024 1 1 ≤ monthEndDate i)) =
        (List.range 84).drop 48 from by decide]
  have htake : (okSeries t s vol ω).take 48 =
      (List.range 48).map (fun i =>
        (monthEndDate i, value t s (fun j => 0 + vol * ω j) i)) := by
    rw [hser, ← List.map_take, List.take_range]
    norm_num
  have hdrop : (okSeries t s vol ω).drop 48 =
      ((List.range 84).drop 48).map (fun i =>
        (monthEndDate i, value t s (fun j => 0 + vol * ω j) i)) := by
    rw [hser, List.map_drop]
  refine ⟨generate_eq_ok_okSeries t s vol ω h, ?_, ?_, ?_, ?_, ?_, ?_⟩
  · rw [hhist, htake]
  · rw [hfore, hdrop]
  · rw [hhist]; simp
  · rw [hfore]; simp
  · rw [hser]
    intro p hp
    obtain ⟨i, hi, rfl⟩ := List.mem_map.mp hp
    rw [List.mem_range] at hi
    exact monthEndDate_ne_jan1 i hi
  · rw [hfore]
    simp only [List.map_map]
    rw [List.getD_eq_getElem _ _ (by simp)]
    simp only [List.getElem_map, List.getElem_drop, List.getElem_range,
      Function.comp]
    decide

theorem C9_forecast_split_witness :
    generate_scenario_data 3.5 1.5 1 (fun _ => 0) =
      .ok (okSeries 3.5 1.5 1 (fun _ => 0)) ∧
    history (okSeries 3.5 1.5 1 (fun _ => 0)) =
      (okSeries 3.5 1.5 1 (fun _ => 0)).take 48 ∧
    forecast (okSeries 3.5 1.5 1 (fun _ => 0)) =
      (okSeries 3.5 1.5 1 (fun _ => 0)).drop 48 ∧
    (history (okSeries 3.5 1.5 1 (fun _ => 0))).length = 48 ∧
    (forecast (okSeries 3.5 1.5 1 (fun _ => 0))).length = 36 ∧
    (∀ p ∈ okSeries 3.5 1.5 1 (fun _ => 0), p.1 ≠ encodeDate 2024 1 1) ∧
    ((forecast (okSeries 3.5 1.5 1 (fun _ => 0))).map Prod.fst).getD 0 0 =
      encodeDate 2024 1 31 :=
  C9_forecast_split 3.5 1.5 1 (fun _ => 0) zero_le_one

/-- C10: with volatility = 0 the first value of the generated series is
exactly 2, independent of the target inflation and the shock intensity. -/
theorem C10_first_value_two (t s : ℝ) (ω : ℕ → ℝ) :
    ((okSeries t s 0 ω).getD 0 (0, 0)).2 = 2 := by
  rw [okSeries_eq t s 0 ω le_rfl, series_getD t s _ 0 (by norm_num)]
  show value t s (fun j => 0 + 0 * ω j) 0 = 2
  rw [value_zero_vol, trend_zero, seasonality_zero, shock_lt s 0 (by norm_num)]
  norm_num

end Inflation
